import Mathlib

/-!
Kaffe: error descriptors, JIT3 base instruction forms, pthread condition waits.

A shallow embedding of three source files of the Kaffe virtual machine:

* `kaffe/kaffevm/errors.h` : the `KERR_*` bit constants, `errorInfo`, `checkPtr`;
* `kaffe/kaffevm/jit3/basecode.h` : branch conditions, derived branch macros,
  block macros, monitor macros and the instruction format macros;
* `kaffe/kaffevm/systems/unix-pthreads/lock-impl.c` : `jcondvar_wait`.

Preprocessor macros are embedded as functions from their actual arguments to
the call they expand to.  Functions that are only declared in these files
(`postOutOfMemory`, `throwError`, the backend primitives) appear as
constructors of the call that is made, or as parameters.
-/

namespace Kaffe

/-! ## errors.h -/

def KERR_EXCEPTION : Nat := 0x0001
def KERR_RETHROW : Nat := 0x0002
def KERR_INITIALIZER_ERROR : Nat := 0x0004
def KERR_OUT_OF_MEMORY : Nat := 0x0008
def KERR_CODE_MASK : Nat := 0x00ff

def KERR_FREE_MESSAGE : Nat := 0x8000

/-- The four error codes of the `type` field, in the order of their definition. -/
def errorCodes : List Nat :=
  [KERR_EXCEPTION, KERR_RETHROW, KERR_INITIALIZER_ERROR, KERR_OUT_OF_MEMORY]

/-- The C operator `~` on an `int` of `w` bits, on bit patterns:
every one of the `w` bits is flipped. -/
def bitNot (w x : Nat) : Nat := (2 ^ w - 1) ^^^ (x % 2 ^ w)

/-- The struct `_errorInfo`.  `type` is the bit pattern of the C `int`;
the pointers are addresses, `0` being the null pointer. -/
structure errorInfo where
  type : Nat
  classname : Nat
  mess : Nat
  throwable : Nat
deriving DecidableEq, Repr

/-- What a call of an error routine does that the caller can observe. -/
inductive ErrorCall where
  /-- The call `postOutOfMemory(&info)`, with the contents of `info` before the call. -/
  | postOutOfMemory (before : errorInfo) : ErrorCall
  /-- The call `throwError(&info)`, with the contents of `info` at the call. -/
  | throwError (einfo : errorInfo) : ErrorCall
deriving DecidableEq, Repr

/-- The run of a function: the error routines it called, in order, and the
value it returned, `none` when control never came back to the caller. -/
structure Run (α : Type) where
  calls : List ErrorCall
  returned : Option α
deriving DecidableEq, Repr

/-- The inline function `checkPtr`.  `postOutOfMemory` is declared but not defined in
errors.h: it is a parameter, the contents it leaves in the descriptor it is given.
`info` is the contents of the local `errorInfo info` before it is posted to.
`throwError` is declared `__NORETURN__`, so `return p` is not reached after it. -/
def checkPtr (postOutOfMemory : errorInfo → errorInfo) (info : errorInfo) (p : Nat) :
    Run Nat :=
  if p = 0 then
    ⟨[ErrorCall.postOutOfMemory info, ErrorCall.throwError (postOutOfMemory info)], none⟩
  else
    ⟨[], some p⟩

/-! ## jit3/basecode.h : branches -/

def ba : Nat := 0
def beq : Nat := 1
def blt : Nat := 2
def ble : Nat := 3
def bgt : Nat := 4
def bge : Nat := 5
def bne : Nat := 6
def bn : Nat := 7
def bindirect : Nat := 8
def bult : Nat := 9
def buge : Nat := 10
def bugt : Nat := 11

/-- The branch conditions defined in basecode.h, in the order of their definition. -/
def branchConditions : List Nat :=
  [ba, beq, blt, ble, bgt, bge, bne, bn, bindirect, bult, buge, bugt]

/-- A call of one of the backend branch primitives.  The macros forward their
arguments as written, so the operands have one type `α`. -/
inductive BranchCall (α : Type) where
  | branch (l : α) (cond : Nat) : BranchCall α
  | cbranch_int (s1 s2 l : α) (cond : Nat) : BranchCall α
  | cbranch_int_const (s1 s2 l : α) (cond : Nat) : BranchCall α
  | cbranch_offset_int (s1 s2 o l : α) (cond : Nat) : BranchCall α
  | cbranch_ref (s1 s2 l : α) (cond : Nat) : BranchCall α
  | cbranch_ref_const (s1 s2 l : α) (cond : Nat) : BranchCall α
deriving DecidableEq, Repr

/-- The condition code argument of a branch primitive call. -/
def BranchCall.cond {α : Type} : BranchCall α → Nat
  | .branch _ c => c
  | .cbranch_int _ _ _ c => c
  | .cbranch_int_const _ _ _ c => c
  | .cbranch_offset_int _ _ _ _ c => c
  | .cbranch_ref _ _ _ c => c
  | .cbranch_ref_const _ _ _ c => c

section BranchForms
variable {α : Type}

def branch_a (l : α) : BranchCall α := .branch l ba

def cbranch_int_eq (s1 s2 l : α) : BranchCall α := .cbranch_int s1 s2 l beq
def cbranch_int_ne (s1 s2 l : α) : BranchCall α := .cbranch_int s1 s2 l bne
def cbranch_int_lt (s1 s2 l : α) : BranchCall α := .cbranch_int s1 s2 l blt
def cbranch_int_le (s1 s2 l : α) : BranchCall α := .cbranch_int s1 s2 l ble
def cbranch_int_gt (s1 s2 l : α) : BranchCall α := .cbranch_int s1 s2 l bgt
def cbranch_int_ge (s1 s2 l : α) : BranchCall α := .cbranch_int s1 s2 l bge
def cbranch_int_ult (s1 s2 l : α) : BranchCall α := .cbranch_int s1 s2 l bult
def cbranch_int_ugt (s1 s2 l : α) : BranchCall α := .cbranch_int s1 s2 l bugt
def cbranch_int_uge (s1 s2 l : α) : BranchCall α := .cbranch_int s1 s2 l buge

def cbranch_int_const_eq (s1 s2 l : α) : BranchCall α := .cbranch_int_const s1 s2 l beq
def cbranch_int_const_ne (s1 s2 l : α) : BranchCall α := .cbranch_int_const s1 s2 l bne
def cbranch_int_const_lt (s1 s2 l : α) : BranchCall α := .cbranch_int_const s1 s2 l blt
def cbranch_int_const_le (s1 s2 l : α) : BranchCall α := .cbranch_int_const s1 s2 l ble
def cbranch_int_const_gt (s1 s2 l : α) : BranchCall α := .cbranch_int_const s1 s2 l bgt
def cbranch_int_const_ge (s1 s2 l : α) : BranchCall α := .cbranch_int_const s1 s2 l bge
def cbranch_int_const_ult (s1 s2 l : α) : BranchCall α := .cbranch_int_const s1 s2 l bult
def cbranch_int_const_ugt (s1 s2 l : α) : BranchCall α := .cbranch_int_const s1 s2 l bugt

def cbranch_offset_int_eq (s1 s2 o l : α) : BranchCall α := .cbranch_offset_int s1 s2 o l beq
def cbranch_offset_int_ne (s1 s2 o l : α) : BranchCall α := .cbranch_offset_int s1 s2 o l bne
def cbranch_offset_int_lt (s1 s2 o l : α) : BranchCall α := .cbranch_offset_int s1 s2 o l blt
def cbranch_offset_int_le (s1 s2 o l : α) : BranchCall α := .cbranch_offset_int s1 s2 o l ble
def cbranch_offset_int_gt (s1 s2 o l : α) : BranchCall α := .cbranch_offset_int s1 s2 o l bgt
def cbranch_offset_int_ge (s1 s2 o l : α) : BranchCall α := .cbranch_offset_int s1 s2 o l bge
def cbranch_offset_int_ult (s1 s2 o l : α) : BranchCall α := .cbranch_offset_int s1 s2 o l bult
def cbranch_offset_int_ugt (s1 s2 o l : α) : BranchCall α := .cbranch_offset_int s1 s2 o l bugt
def cbranch_offset_int_uge (s1 s2 o l : α) : BranchCall α := .cbranch_offset_int s1 s2 o l buge

def cbranch_ref_eq (s1 s2 l : α) : BranchCall α := .cbranch_ref s1 s2 l beq
def cbranch_ref_ne (s1 s2 l : α) : BranchCall α := .cbranch_ref s1 s2 l bne

def cbranch_ref_const_eq (s1 s2 l : α) : BranchCall α := .cbranch_ref_const s1 s2 l beq
def cbranch_ref_const_ne (s1 s2 l : α) : BranchCall α := .cbranch_ref_const s1 s2 l bne

end BranchForms

/-- The backend primitive families the derived branch macros are built on:
the first word(s) of a macro's name. -/
inductive BranchFamily where
  | branch | cbranch_int | cbranch_int_const | cbranch_offset_int | cbranch_ref
  | cbranch_ref_const
deriving DecidableEq, Repr

/-- The last word of a derived branch macro's name. -/
inductive CondSuffix where
  | a | eq | ne | lt | le | gt | ge | ult | ugt | uge
deriving DecidableEq, Repr

/-- The derived branch macros of basecode.h by name, `family_suffix`, each as a
function of the operands `s1 s2 o l`; a macro ignores the operands it does not take.
`none` where basecode.h defines no macro of that name. -/
def derivedBranch {α : Type} :
    BranchFamily → CondSuffix → Option (α → α → α → α → BranchCall α)
  | .branch, .a => some fun _ _ _ l => branch_a l
  | .cbranch_int, .eq => some fun s1 s2 _ l => cbranch_int_eq s1 s2 l
  | .cbranch_int, .ne => some fun s1 s2 _ l => cbranch_int_ne s1 s2 l
  | .cbranch_int, .lt => some fun s1 s2 _ l => cbranch_int_lt s1 s2 l
  | .cbranch_int, .le => some fun s1 s2 _ l => cbranch_int_le s1 s2 l
  | .cbranch_int, .gt => some fun s1 s2 _ l => cbranch_int_gt s1 s2 l
  | .cbranch_int, .ge => some fun s1 s2 _ l => cbranch_int_ge s1 s2 l
  | .cbranch_int, .ult => some fun s1 s2 _ l => cbranch_int_ult s1 s2 l
  | .cbranch_int, .ugt => some fun s1 s2 _ l => cbranch_int_ugt s1 s2 l
  | .cbranch_int, .uge => some fun s1 s2 _ l => cbranch_int_uge s1 s2 l
  | .cbranch_int_const, .eq => some fun s1 s2 _ l => cbranch_int_const_eq s1 s2 l
  | .cbranch_int_const, .ne => some fun s1 s2 _ l => cbranch_int_const_ne s1 s2 l
  | .cbranch_int_const, .lt => some fun s1 s2 _ l => cbranch_int_const_lt s1 s2 l
  | .cbranch_int_const, .le => some fun s1 s2 _ l => cbranch_int_const_le s1 s2 l
  | .cbranch_int_const, .gt => some fun s1 s2 _ l => cbranch_int_const_gt s1 s2 l
  | .cbranch_int_const, .ge => some fun s1 s2 _ l => cbranch_int_const_ge s1 s2 l
  | .cbranch_int_const, .ult => some fun s1 s2 _ l => cbranch_int_const_ult s1 s2 l
  | .cbranch_int_const, .ugt => some fun s1 s2 _ l => cbranch_int_const_ugt s1 s2 l
  | .cbranch_offset_int, .eq => some fun s1 s2 o l => cbranch_offset_int_eq s1 s2 o l
  | .cbranch_offset_int, .ne => some fun s1 s2 o l => cbranch_offset_int_ne s1 s2 o l
  | .cbranch_offset_int, .lt => some fun s1 s2 o l => cbranch_offset_int_lt s1 s2 o l
  | .cbranch_offset_int, .le => some fun s1 s2 o l => cbranch_offset_int_le s1 s2 o l
  | .cbranch_offset_int, .gt => some fun s1 s2 o l => cbranch_offset_int_gt s1 s2 o l
  | .cbranch_offset_int, .ge => some fun s1 s2 o l => cbranch_offset_int_ge s1 s2 o l
  | .cbranch_offset_int, .ult => some fun s1 s2 o l => cbranch_offset_int_ult s1 s2 o l
  | .cbranch_offset_int, .ugt => some fun s1 s2 o l => cbranch_offset_int_ugt s1 s2 o l
  | .cbranch_offset_int, .uge => some fun s1 s2 o l => cbranch_offset_int_uge s1 s2 o l
  | .cbranch_ref, .eq => some fun s1 s2 _ l => cbranch_ref_eq s1 s2 l
  | .cbranch_ref, .ne => some fun s1 s2 _ l => cbranch_ref_ne s1 s2 l
  | .cbranch_ref_const, .eq => some fun s1 s2 _ l => cbranch_ref_const_eq s1 s2 l
  | .cbranch_ref_const, .ne => some fun s1 s2 _ l => cbranch_ref_const_ne s1 s2 l
  | _, _ => none

/-- The names of the derived branch macros basecode.h defines, in the order of
their definition. -/
def derivedBranchNames : List (BranchFamily × CondSuffix) :=
  [(.branch, .a), (.cbranch_int, .eq), (.cbranch_int, .ne), (.cbranch_int, .lt),
   (.cbranch_int, .le), (.cbranch_int, .gt), (.cbranch_int, .ge), (.cbranch_int, .ult),
   (.cbranch_int, .ugt), (.cbranch_int, .uge), (.cbranch_int_const, .eq),
   (.cbranch_int_const, .ne), (.cbranch_int_const, .lt), (.cbranch_int_const, .le),
   (.cbranch_int_const, .gt), (.cbranch_int_const, .ge), (.cbranch_int_const, .ult),
   (.cbranch_int_const, .ugt), (.cbranch_offset_int, .eq), (.cbranch_offset_int, .ne),
   (.cbranch_offset_int, .lt), (.cbranch_offset_int, .le), (.cbranch_offset_int, .gt),
   (.cbranch_offset_int, .ge), (.cbranch_offset_int, .ult), (.cbranch_offset_int, .ugt),
   (.cbranch_offset_int, .uge), (.cbranch_ref, .eq), (.cbranch_ref, .ne),
   (.cbranch_ref_const, .eq), (.cbranch_ref_const, .ne)]

/-- The condition code a suffix denotes, in the words of the specification:
`_eq` is equal, `_ne` not equal, `_lt` less than, `_le` less than or equal,
`_gt` greater than, `_ge` greater than or equal, `_ult`, `_ugt`, `_uge` their
unsigned counterparts, and `_a` always. -/
def CondSuffix.denotes : CondSuffix → Nat
  | .a => ba
  | .eq => beq
  | .ne => bne
  | .lt => blt
  | .le => ble
  | .gt => bgt
  | .ge => bge
  | .ult => bult
  | .ugt => bugt
  | .uge => buge

/-- The call of a family's backend primitive with the operands a form of that
family takes, in the order `s1, s2, (o,) l`, and a condition code. -/
def BranchFamily.primitive {α : Type} :
    BranchFamily → α → α → α → α → Nat → BranchCall α
  | .branch, _, _, _, l, cond => .branch l cond
  | .cbranch_int, s1, s2, _, l, cond => .cbranch_int s1 s2 l cond
  | .cbranch_int_const, s1, s2, _, l, cond => .cbranch_int_const s1 s2 l cond
  | .cbranch_offset_int, s1, s2, o, l, cond => .cbranch_offset_int s1 s2 o l cond
  | .cbranch_ref, s1, s2, _, l, cond => .cbranch_ref s1 s2 l cond
  | .cbranch_ref_const, s1, s2, _, l, cond => .cbranch_ref_const s1 s2 l cond

/-! ## jit3/basecode.h : basic blocks and instructions -/

/-- The variables of the translator the block and monitor macros refer to by
name: they are read where the macro is used. -/
structure Scope (α : Type) where
  pc : α
  meth : α
  stackno : α
  tmpslot : α
deriving DecidableEq, Repr

/-- A call of one of the functions the block macros expand to. -/
inductive BlockCall (α : Type) where
  | _start_instruction (pc : α) : BlockCall α
  | prologue (meth : α) : BlockCall α
  | _start_basic_block : BlockCall α
  | _end_basic_block : BlockCall α
  | _start_sub_block : BlockCall α
  | _end_sub_block : BlockCall α
  | epilogue : BlockCall α
  | _start_exception_block (stackno : α) : BlockCall α
  | _syncRegisters (stackno tmpslot : α) : BlockCall α
deriving DecidableEq, Repr

/-- The arguments of a block call, in order. -/
def BlockCall.args {α : Type} : BlockCall α → List α
  | ._start_instruction pc => [pc]
  | .prologue meth => [meth]
  | ._start_basic_block => []
  | ._end_basic_block => []
  | ._start_sub_block => []
  | ._end_sub_block => []
  | .epilogue => []
  | ._start_exception_block stackno => [stackno]
  | ._syncRegisters stackno tmpslot => [stackno, tmpslot]

section BlockForms
variable {α : Type}

def start_instruction (sc : Scope α) : BlockCall α := ._start_instruction sc.pc
def start_function (sc : Scope α) : BlockCall α := .prologue sc.meth
def start_basic_block (_sc : Scope α) : BlockCall α := ._start_basic_block
def end_basic_block (_sc : Scope α) : BlockCall α := ._end_basic_block
def start_sub_block (_sc : Scope α) : BlockCall α := ._start_sub_block
def end_sub_block (_sc : Scope α) : BlockCall α := ._end_sub_block
def end_function (_sc : Scope α) : BlockCall α := .epilogue
def start_exception_block (sc : Scope α) : BlockCall α := ._start_exception_block sc.stackno
def sync_registers (sc : Scope α) : BlockCall α := ._syncRegisters sc.stackno sc.tmpslot

end BlockForms

/-! ## jit3/basecode.h : conditional monitors -/

/-- A call-out to one of the monitor functions, with the method and the slot it is given. -/
inductive MonitorCall (α σ : Type) where
  | mon_enter (meth : α) (slot : σ) : MonitorCall α σ
  | mon_exit (meth : α) (slot : σ) : MonitorCall α σ
deriving DecidableEq, Repr

/-- The macro `monitor_enter()`: the statements it expands to.  `local` is not
defined in basecode.h: it is the parameter `localSlot`, the slot of a local variable. -/
def monitor_enter {α σ : Type} (localSlot : Nat → σ) (sc : Scope α) : List (MonitorCall α σ) :=
  [.mon_enter sc.meth (localSlot 0)]

/-- The macro `monitor_exit()`: the statements it expands to. -/
def monitor_exit {α σ : Type} (localSlot : Nat → σ) (sc : Scope α) : List (MonitorCall α σ) :=
  [.mon_exit sc.meth (localSlot 0)]

/-! ## jit3/basecode.h : instruction formats -/

/-- The words an instruction format's name is made of, one for each operand. -/
inductive OperandKind where
  | slot | lslot | const | lconst | fconst
deriving DecidableEq, Repr

/-- The parameter types in the prototypes of the emission functions. -/
inductive CType where
  | SlotInfoPtr | jword | jlong | double | ifunc | int
deriving DecidableEq, Repr

/-- The emission functions declared in basecode.h, one after each format. -/
inductive Emitter where
  | _slot_const_const
  | _slot_slot_const
  | _slot_slot_fconst
  | _slot_slot_slot
  | _lslot_lslot_const
  | _lslot_lslot_lconst
  | _lslot_slot_lconst
  | _lslot_slot_fconst
  | _lslot_lslot_lslot
  | _lslot_lslot_slot
  | _slot_slot_lslot
  | _slot_lslot_lslot
  | _slot_slot_slot_const_const
  | _slot_slot_const_const_const
deriving DecidableEq, Repr

/-- The parameter types of an emission function, as its prototype declares them. -/
def Emitter.prototype : Emitter → List CType
  | ._slot_const_const => [.SlotInfoPtr, .jword, .jword, .ifunc, .int]
  | ._slot_slot_const => [.SlotInfoPtr, .SlotInfoPtr, .jword, .ifunc, .int]
  | ._slot_slot_fconst => [.SlotInfoPtr, .SlotInfoPtr, .double, .ifunc, .int]
  | ._slot_slot_slot => [.SlotInfoPtr, .SlotInfoPtr, .SlotInfoPtr, .ifunc, .int]
  | ._lslot_lslot_const => [.SlotInfoPtr, .SlotInfoPtr, .jword, .ifunc, .int]
  | ._lslot_lslot_lconst => [.SlotInfoPtr, .SlotInfoPtr, .jlong, .ifunc, .int]
  | ._lslot_slot_lconst => [.SlotInfoPtr, .SlotInfoPtr, .jlong, .ifunc, .int]
  | ._lslot_slot_fconst => [.SlotInfoPtr, .SlotInfoPtr, .double, .ifunc, .int]
  | ._lslot_lslot_lslot => [.SlotInfoPtr, .SlotInfoPtr, .SlotInfoPtr, .ifunc, .int]
  | ._lslot_lslot_slot => [.SlotInfoPtr, .SlotInfoPtr, .SlotInfoPtr, .ifunc, .int]
  | ._slot_slot_lslot => [.SlotInfoPtr, .SlotInfoPtr, .SlotInfoPtr, .ifunc, .int]
  | ._slot_lslot_lslot => [.SlotInfoPtr, .SlotInfoPtr, .SlotInfoPtr, .ifunc, .int]
  | ._slot_slot_slot_const_const => [.SlotInfoPtr, .SlotInfoPtr, .SlotInfoPtr, .jword, .jword, .ifunc, .int]
  | ._slot_slot_const_const_const => [.SlotInfoPtr, .SlotInfoPtr, .jword, .jword, .jword, .ifunc, .int]

/-- A statement of the block an instruction format expands to. -/
inductive Stmt (α : Type) where
  /-- The declaration `void func(sequence*);` -/
  | declare (func : α) : Stmt α
  /-- A call of an emission function with its arguments in order. -/
  | call (emitter : Emitter) (args : List α) : Stmt α
deriving DecidableEq, Repr

section Formats
variable {α : Type}

def slot_const_const (dst src src2 func t : α) : List (Stmt α) :=
  [.declare func, .call ._slot_const_const [dst, src, src2, func, t]]

def slot_slot_const (dst src src2 func t : α) : List (Stmt α) :=
  [.declare func, .call ._slot_slot_const [dst, src, src2, func, t]]

def slot_slot_fconst (dst src src2 func t : α) : List (Stmt α) :=
  [.declare func, .call ._slot_slot_fconst [dst, src, src2, func, t]]

def slot_slot_slot (dst src src2 func t : α) : List (Stmt α) :=
  [.declare func, .call ._slot_slot_slot [dst, src, src2, func, t]]

def lslot_lslot_const (dst src src2 func t : α) : List (Stmt α) :=
  [.declare func, .call ._lslot_lslot_const [dst, src, src2, func, t]]

def lslot_lslot_lconst (dst src src2 func t : α) : List (Stmt α) :=
  [.declare func, .call ._lslot_lslot_lconst [dst, src, src2, func, t]]

def lslot_slot_lconst (dst src src2 func t : α) : List (Stmt α) :=
  [.declare func, .call ._lslot_slot_lconst [dst, src, src2, func, t]]

def lslot_slot_fconst (dst src src2 func t : α) : List (Stmt α) :=
  [.declare func, .call ._lslot_slot_fconst [dst, src, src2, func, t]]

def lslot_lslot_lslot (dst src src2 func t : α) : List (Stmt α) :=
  [.declare func, .call ._lslot_lslot_lslot [dst, src, src2, func, t]]

def lslot_lslot_slot (dst src src2 func t : α) : List (Stmt α) :=
  [.declare func, .call ._lslot_lslot_slot [dst, src, src2, func, t]]

def slot_slot_lslot (dst src src2 func t : α) : List (Stmt α) :=
  [.declare func, .call ._slot_slot_lslot [dst, src, src2, func, t]]

def slot_lslot_lslot (dst src src2 func t : α) : List (Stmt α) :=
  [.declare func, .call ._slot_lslot_lslot [dst, src, src2, func, t]]

def slot_slot_slot_const_const (dst src src2 src3 src4 func t : α) : List (Stmt α) :=
  [.declare func, .call ._slot_slot_slot_const_const [dst, src, src2, src3, src4, func, t]]

def slot_slot_const_const_const (dst src src2 src3 src4 func t : α) : List (Stmt α) :=
  [.declare func, .call ._slot_slot_const_const_const [dst, src, src2, src3, src4, func, t]]

end Formats

/-- The instruction formats basecode.h defines, by name. -/
inductive Shape where
  | slot_const_const
  | slot_slot_const
  | slot_slot_fconst
  | slot_slot_slot
  | lslot_lslot_const
  | lslot_lslot_lconst
  | lslot_slot_lconst
  | lslot_slot_fconst
  | lslot_lslot_lslot
  | lslot_lslot_slot
  | slot_slot_lslot
  | slot_lslot_lslot
  | slot_slot_slot_const_const
  | slot_slot_const_const_const
deriving DecidableEq, Repr

/-- The instruction formats in the order of their definition. -/
def shapeTemplates : List Shape :=
  [.slot_const_const, .slot_slot_const, .slot_slot_fconst, .slot_slot_slot,
   .lslot_lslot_const, .lslot_lslot_lconst, .lslot_slot_lconst, .lslot_slot_fconst,
   .lslot_lslot_lslot, .lslot_lslot_slot, .slot_slot_lslot, .slot_lslot_lslot,
   .slot_slot_slot_const_const, .slot_slot_const_const_const]

/-- The operand kinds of a format, destination first: the words of its name. -/
def Shape.operands : Shape → List OperandKind
  | .slot_const_const => [.slot, .const, .const]
  | .slot_slot_const => [.slot, .slot, .const]
  | .slot_slot_fconst => [.slot, .slot, .fconst]
  | .slot_slot_slot => [.slot, .slot, .slot]
  | .lslot_lslot_const => [.lslot, .lslot, .const]
  | .lslot_lslot_lconst => [.lslot, .lslot, .lconst]
  | .lslot_slot_lconst => [.lslot, .slot, .lconst]
  | .lslot_slot_fconst => [.lslot, .slot, .fconst]
  | .lslot_lslot_lslot => [.lslot, .lslot, .lslot]
  | .lslot_lslot_slot => [.lslot, .lslot, .slot]
  | .slot_slot_lslot => [.slot, .slot, .lslot]
  | .slot_lslot_lslot => [.slot, .lslot, .lslot]
  | .slot_slot_slot_const_const => [.slot, .slot, .slot, .const, .const]
  | .slot_slot_const_const_const => [.slot, .slot, .const, .const, .const]

/-- The use of a format by name: its expansion at the operands given, `none` when
their number is not the number of its parameters. -/
def Shape.expand {α : Type} (func t : α) : Shape → List α → Option (List (Stmt α))
  | .slot_const_const, [dst, src, src2] => some (Kaffe.slot_const_const dst src src2 func t)
  | .slot_slot_const, [dst, src, src2] => some (Kaffe.slot_slot_const dst src src2 func t)
  | .slot_slot_fconst, [dst, src, src2] => some (Kaffe.slot_slot_fconst dst src src2 func t)
  | .slot_slot_slot, [dst, src, src2] => some (Kaffe.slot_slot_slot dst src src2 func t)
  | .lslot_lslot_const, [dst, src, src2] => some (Kaffe.lslot_lslot_const dst src src2 func t)
  | .lslot_lslot_lconst, [dst, src, src2] => some (Kaffe.lslot_lslot_lconst dst src src2 func t)
  | .lslot_slot_lconst, [dst, src, src2] => some (Kaffe.lslot_slot_lconst dst src src2 func t)
  | .lslot_slot_fconst, [dst, src, src2] => some (Kaffe.lslot_slot_fconst dst src src2 func t)
  | .lslot_lslot_lslot, [dst, src, src2] => some (Kaffe.lslot_lslot_lslot dst src src2 func t)
  | .lslot_lslot_slot, [dst, src, src2] => some (Kaffe.lslot_lslot_slot dst src src2 func t)
  | .slot_slot_lslot, [dst, src, src2] => some (Kaffe.slot_slot_lslot dst src src2 func t)
  | .slot_lslot_lslot, [dst, src, src2] => some (Kaffe.slot_lslot_lslot dst src src2 func t)
  | .slot_slot_slot_const_const, [dst, src, src2, src3, src4] => some (Kaffe.slot_slot_slot_const_const dst src src2 src3 src4 func t)
  | .slot_slot_const_const_const, [dst, src, src2, src3, src4] => some (Kaffe.slot_slot_const_const_const dst src src2 src3 src4 func t)
  | _, _ => none

/-- The emission function a format calls: the one named in its body. -/
def Shape.emitter : Shape → Emitter
  | .slot_const_const => ._slot_const_const
  | .slot_slot_const => ._slot_slot_const
  | .slot_slot_fconst => ._slot_slot_fconst
  | .slot_slot_slot => ._slot_slot_slot
  | .lslot_lslot_const => ._lslot_lslot_const
  | .lslot_lslot_lconst => ._lslot_lslot_lconst
  | .lslot_slot_lconst => ._lslot_slot_lconst
  | .lslot_slot_fconst => ._lslot_slot_fconst
  | .lslot_lslot_lslot => ._lslot_lslot_lslot
  | .lslot_lslot_slot => ._lslot_lslot_slot
  | .slot_slot_lslot => ._slot_slot_lslot
  | .slot_lslot_lslot => ._slot_lslot_lslot
  | .slot_slot_slot_const_const => ._slot_slot_slot_const_const
  | .slot_slot_const_const_const => ._slot_slot_const_const_const

/-- The C type an operand of a kind is passed as. -/
def OperandKind.ctype : OperandKind → CType
  | .slot => .SlotInfoPtr
  | .lslot => .SlotInfoPtr
  | .const => .jword
  | .lconst => .jlong
  | .fconst => .double

/-! ## systems/unix-pthreads/lock-impl.c -/

/-- What lock-impl.c takes from the headers of the platform: the widths in bits
of `time_t` and of `long` (the type of `tv_usec` and `tv_nsec`), the value of
`NOTIMEOUT` (jsyscall.h) and of `EINTR` (errno.h).  `jlong` is 64 bits wide. -/
structure Abi where
  timeBits : Nat
  longBits : Nat
  NOTIMEOUT : Int
  EINTR : Int
deriving DecidableEq, Repr

/-- The value a signed integer type of `w` bits holds after a result `x` is
stored in it: `x` modulo `2 ^ w`, in the range `-2 ^ (w - 1) .. 2 ^ (w - 1) - 1`. -/
def wrapInt (w : Nat) (x : Int) : Int := (x + 2 ^ (w - 1)) % 2 ^ w - 2 ^ (w - 1)

structure timeval where
  tv_sec : Int
  tv_usec : Int
deriving DecidableEq, Repr

structure timespec where
  tv_sec : Int
  tv_nsec : Int
deriving DecidableEq, Repr

/-- The wait `jcondvar_wait` blocks in. -/
inductive CondWait where
  /-- The call `ThreadCondWait(cur, cv, mux)`: wait forever. -/
  | ThreadCondWait : CondWait
  /-- The call `pthread_cond_timedwait(cv, mux, &abst)`, with the contents of `abst`. -/
  | pthread_cond_timedwait (abst : timespec) : CondWait
deriving DecidableEq, Repr

/-- The deadline handed to `pthread_cond_timedwait`, when that is the wait. -/
def CondWait.abst : CondWait → Option timespec
  | .ThreadCondWait => none
  | .pthread_cond_timedwait abst => some abst

/-- The outcome of `jcondvar_wait`: the wait it blocked in, the value left in
`cur->interrupting`, and the value returned. -/
structure WaitOutcome where
  wait : CondWait
  interrupting : Bool
  result : Bool
deriving DecidableEq, Repr

/-- The function `jcondvar_wait`.  `now` is what `gettimeofday` stores, `status`
the status the wait comes back with.  `timeout` is a `jlong`; `/` and `%` are
those of C, truncating towards zero. -/
def jcondvar_wait (abi : Abi) (status : CondWait → Int) (now : timeval) (timeout : Int) :
    WaitOutcome :=
  let wait : CondWait :=
    if timeout = abi.NOTIMEOUT then
      .ThreadCondWait
    else
      let sec := wrapInt abi.timeBits (wrapInt 64 (now.tv_sec + Int.tdiv timeout 1000))
      if sec < now.tv_sec then
        .ThreadCondWait
      else
        let nsec := wrapInt abi.longBits
          (wrapInt 64 (wrapInt abi.longBits (now.tv_usec * 1000)
            + wrapInt 64 (Int.tmod timeout 1000 * 1000000)))
        if nsec > 1000000000 then
          .pthread_cond_timedwait
            ⟨wrapInt abi.timeBits (sec + 1), wrapInt abi.longBits (nsec - 1000000000)⟩
        else
          .pthread_cond_timedwait ⟨sec, nsec⟩
  let st := status wait
  ⟨wait, decide (st = abi.EINTR), decide (st = 0)⟩

/-- A platform with `time_t` and `long` of 32 bits. -/
def ilp32 : Abi := ⟨32, 32, -1, 4⟩

/-- A platform with `time_t` and `long` of 64 bits. -/
def lp64 : Abi := ⟨64, 64, -1, 4⟩

/-! ## Theorems: errors.h -/

theorem and_mask_of_or_free (t : Nat) :
    (t ||| KERR_FREE_MESSAGE) &&& KERR_CODE_MASK = t &&& KERR_CODE_MASK := by
  apply Nat.eq_of_testBit_eq
  intro i
  have hm : KERR_CODE_MASK = 2 ^ 8 - 1 := by decide
  have hf : KERR_FREE_MESSAGE = 2 ^ 15 := by decide
  rw [hm, hf]
  simp only [Nat.testBit_and, Nat.testBit_or, Nat.testBit_two_pow_sub_one, Nat.testBit_two_pow]
  by_cases h : i < 8
  · have h15 : ¬ (15 = i) := by omega
    simp [h, h15]
  · simp [h]

theorem and_mask_of_and_not_free (w t : Nat) (hw : 16 ≤ w) :
    (t &&& bitNot w KERR_FREE_MESSAGE) &&& KERR_CODE_MASK = t &&& KERR_CODE_MASK := by
  apply Nat.eq_of_testBit_eq
  intro i
  have hm : KERR_CODE_MASK = 2 ^ 8 - 1 := by decide
  have hf : KERR_FREE_MESSAGE = 2 ^ 15 := by decide
  rw [hm, hf]
  simp only [Nat.testBit_and, bitNot, Nat.testBit_xor, Nat.testBit_two_pow_sub_one,
    Nat.testBit_mod_two_pow, Nat.testBit_two_pow]
  by_cases h : i < 8
  · have hi : i < w := by omega
    have h15 : ¬ (15 = i) := by omega
    simp [h, hi, h15]
  · simp [h]

/-- C8: the four error codes are pairwise distinct single bits inside
`KERR_CODE_MASK`; `KERR_FREE_MESSAGE` has no bit in common with the mask, so
setting it in a type value `t`, or clearing it (on an `int` of `w >= 16` bits),
leaves `t & KERR_CODE_MASK` as it was. -/
theorem kerr_free_message_independent (w t : Nat) (hw : 16 ≤ w) :
    errorCodes.Nodup
    ∧ (∀ c ∈ errorCodes, ∃ k, c = 2 ^ k)
    ∧ (∀ c ∈ errorCodes, c &&& KERR_CODE_MASK = c)
    ∧ KERR_FREE_MESSAGE &&& KERR_CODE_MASK = 0
    ∧ (t ||| KERR_FREE_MESSAGE) &&& KERR_CODE_MASK = t &&& KERR_CODE_MASK
    ∧ (t &&& bitNot w KERR_FREE_MESSAGE) &&& KERR_CODE_MASK = t &&& KERR_CODE_MASK := by
  refine ⟨by decide, ?_, by decide, by decide, and_mask_of_or_free t,
    and_mask_of_and_not_free w t hw⟩
  intro c hc
  simp only [errorCodes, List.mem_cons, List.mem_singleton, List.not_mem_nil, or_false] at hc
  rcases hc with h | h | h | h
  · exact ⟨0, by rw [h]; decide⟩
  · exact ⟨1, by rw [h]; decide⟩
  · exact ⟨2, by rw [h]; decide⟩
  · exact ⟨3, by rw [h]; decide⟩

/-- Witness of C8: an `int` of 32 bits and the type value `0x8008`,
`KERR_OUT_OF_MEMORY` with the free flag set. -/
theorem kerr_free_message_independent_witness :
    (16 ≤ 32)
    ∧ (0x8008 ||| KERR_FREE_MESSAGE) &&& KERR_CODE_MASK = 0x8008 &&& KERR_CODE_MASK
    ∧ (0x8008 &&& bitNot 32 KERR_FREE_MESSAGE) &&& KERR_CODE_MASK
        = 0x8008 &&& KERR_CODE_MASK :=
  ⟨by decide, (kerr_free_message_independent 32 0x8008 (by decide)).2.2.2.2.1,
    (kerr_free_message_independent 32 0x8008 (by decide)).2.2.2.2.2⟩

/-- C1: `checkPtr` returns its argument, calling nothing, exactly when the
argument is not null; exactly when it is null it calls `postOutOfMemory` on its
local descriptor, then `throwError` on the descriptor as posted, and does not return. -/
theorem checkPtr_fails_iff_null (postOutOfMemory : errorInfo → errorInfo)
    (info : errorInfo) (p : Nat) :
    (checkPtr postOutOfMemory info p = ⟨[], some p⟩ ↔ p ≠ 0)
    ∧ (checkPtr postOutOfMemory info p
        = ⟨[ErrorCall.postOutOfMemory info, ErrorCall.throwError (postOutOfMemory info)],
            none⟩ ↔ p = 0)
    ∧ ((checkPtr postOutOfMemory info p).returned = none ↔ p = 0) := by
  by_cases h : p = 0
  · simp [checkPtr, h]
  · simp [checkPtr, h]

/-! ## Theorems: branches -/

/-- C2: a derived branch form `family_suffix` is defined exactly for the 31 names of
basecode.h, and expands to the backend primitive of its family with the operands
and the label it was given, in the same order, and the condition code its suffix
denotes (`_eq` gives `beq`, ..., `_uge` gives `buge`, `branch_a` gives `ba`). -/
theorem derivedBranch_forwards {α : Type} (fam : BranchFamily) (suf : CondSuffix)
    (s1 s2 o l : α) :
    derivedBranchNames.length = 31
    ∧ (derivedBranch fam suf).map (fun f => f s1 s2 o l)
      = if (fam, suf) ∈ derivedBranchNames then
          some (fam.primitive s1 s2 o l suf.denotes)
        else none := by
  refine ⟨by decide, ?_⟩
  cases fam <;> cases suf <;> rfl

theorem derivedBranch_eq_primitive {α : Type} (fam : BranchFamily) (suf : CondSuffix)
    (f : α → α → α → α → BranchCall α) (h : derivedBranch fam suf = some f)
    (s1 s2 o l : α) : f s1 s2 o l = fam.primitive s1 s2 o l suf.denotes := by
  cases fam <;> cases suf <;> simp only [derivedBranch] at h <;> cases h <;> rfl

theorem primitive_cond {α : Type} (fam : BranchFamily) (s1 s2 o l : α) (c : Nat) :
    (fam.primitive s1 s2 o l c).cond = c := by
  cases fam <;> rfl

theorem denotes_mem (suf : CondSuffix) : suf.denotes ∈ branchConditions := by
  cases suf <;> decide

/-- C3: the enumeration has exactly 12 codes, they are the numbers 0 to 11 in the
order of their definition and so pairwise distinct, and the condition code of
the call a derived branch form expands to is one of them. -/
theorem derivedBranch_cond_mem {α : Type} (fam : BranchFamily) (suf : CondSuffix)
    (f : α → α → α → α → BranchCall α) (h : derivedBranch fam suf = some f)
    (s1 s2 o l : α) :
    branchConditions.length = 12
    ∧ branchConditions = List.range 12
    ∧ branchConditions.Nodup
    ∧ (f s1 s2 o l).cond ∈ branchConditions := by
  refine ⟨by decide, by decide, by decide, ?_⟩
  rw [derivedBranch_eq_primitive fam suf f h, primitive_cond]
  exact denotes_mem suf

/-- Witness of C3: the form `cbranch_int_ge` at the operands 1, 2 and the label 7. -/
theorem derivedBranch_cond_mem_witness :
    derivedBranch BranchFamily.cbranch_int CondSuffix.ge
        = some (fun (s1 s2 _ l : Nat) => cbranch_int_ge s1 s2 l)
    ∧ (cbranch_int_ge 1 2 7).cond ∈ branchConditions :=
  ⟨rfl, (derivedBranch_cond_mem BranchFamily.cbranch_int CondSuffix.ge
    (fun (s1 s2 _ l : Nat) => cbranch_int_ge s1 s2 l) rfl 1 2 0 7).2.2.2⟩

/-! ## Theorems: basic blocks and monitors -/

/-- C6: `start_exception_block()` calls `_start_exception_block` with the one
argument `stackno` of the scope it is used in, whatever its value;
`start_basic_block()` calls `_start_basic_block` with no argument, the same call in
every scope, so after a basic block opened in a scope `prev` the exception block
opened in `sc` still receives `sc.stackno`. -/
theorem start_exception_block_depth {α : Type} (prev sc : Scope α) :
    start_exception_block sc = BlockCall._start_exception_block sc.stackno
    ∧ (start_exception_block sc).args = [sc.stackno]
    ∧ start_basic_block prev = BlockCall._start_basic_block
    ∧ (start_basic_block prev).args = []
    ∧ start_basic_block prev = start_basic_block sc
    ∧ [start_basic_block prev, start_exception_block sc].map BlockCall.args
        = [[], [sc.stackno]] :=
  ⟨rfl, rfl, rfl, rfl, rfl, rfl⟩

/-- C7: `monitor_enter()` expands to the single call-out `mon_enter(meth, local(0))`,
`monitor_exit()` to the single call-out `mon_exit(meth, local(0))`, and neither
contains a call-out to the function of the other. -/
theorem monitor_callouts {α σ : Type} (localSlot : Nat → σ) (sc : Scope α) :
    monitor_enter localSlot sc = [MonitorCall.mon_enter sc.meth (localSlot 0)]
    ∧ monitor_exit localSlot sc = [MonitorCall.mon_exit sc.meth (localSlot 0)]
    ∧ (monitor_enter localSlot sc).length = 1
    ∧ (monitor_exit localSlot sc).length = 1
    ∧ (∀ m s, MonitorCall.mon_exit m s ∉ monitor_enter localSlot sc)
    ∧ (∀ m s, MonitorCall.mon_enter m s ∉ monitor_exit localSlot sc) := by
  refine ⟨rfl, rfl, rfl, rfl, ?_, ?_⟩ <;> intro m s <;> simp [monitor_enter, monitor_exit]

/-! ## Theorems: instruction formats -/

theorem expand_eq {α : Type} (s : Shape) (ops : List α) (func t : α) :
    s.expand func t ops
      = if ops.length = s.operands.length then
          some [Stmt.declare func, Stmt.call s.emitter (ops ++ [func, t])]
        else none := by
  rcases ops with _ | ⟨a, _ | ⟨b, _ | ⟨c, _ | ⟨d, _ | ⟨e, _ | ⟨g, r⟩⟩⟩⟩⟩⟩ <;>
    cases s <;>
    simp [Shape.expand, Shape.operands, Shape.emitter, slot_const_const, slot_slot_const,
      slot_slot_fconst, slot_slot_slot, lslot_lslot_const, lslot_lslot_lconst,
      lslot_slot_lconst, lslot_slot_fconst, lslot_lslot_lslot, lslot_lslot_slot,
      slot_slot_lslot, slot_lslot_lslot, slot_slot_slot_const_const,
      slot_slot_const_const_const]

/-- C4, as the claim states it, fails: basecode.h defines no instruction format
with a slot destination, a constant first source and a slot second source. -/
theorem no_slot_const_slot_shape :
    ¬ ∃ s : Shape, s.operands = [OperandKind.slot, OperandKind.const, OperandKind.slot] := by
  rintro ⟨s, h⟩
  cases s <;> exact absurd h (by decide)

/-- C4, amended: the format for a slot destination, a slot source and a constant
source is `slot_slot_const`, the only format with these operand kinds; it declares
the backend primitive and calls `_slot_slot_const` with destination, slot, constant,
backend primitive and type tag, as given and in that order.  No format takes the
constant before the slot. -/
theorem slot_slot_const_forwards {α : Type} (dst src src2 func t : α) :
    Shape.slot_slot_const.operands
        = [OperandKind.slot, OperandKind.slot, OperandKind.const]
    ∧ slot_slot_const dst src src2 func t
        = [Stmt.declare func, Stmt.call Emitter._slot_slot_const [dst, src, src2, func, t]]
    ∧ Shape.slot_slot_const.expand func t [dst, src, src2]
        = some (slot_slot_const dst src src2 func t)
    ∧ (∀ s : Shape, s.operands = [OperandKind.slot, OperandKind.slot, OperandKind.const]
        ↔ s = Shape.slot_slot_const)
    ∧ (∀ s : Shape,
        s.operands ≠ [OperandKind.slot, OperandKind.const, OperandKind.slot]) := by
  refine ⟨rfl, rfl, rfl, ?_, ?_⟩
  · intro s
    cases s <;> decide
  · intro s
    cases s <;> decide

/-- C5, as the claim states it, fails: not every format with two sources has both
sources among `const`, `slot`, `lslot`; `slot_slot_fconst` takes a `double`. -/
theorem two_source_shape_outside_const_slot_lslot :
    ¬ ∀ s : Shape, s.operands.length = 3 →
        (∀ k ∈ s.operands.take 1, k ∈ [OperandKind.slot, OperandKind.lslot])
        ∧ (∀ k ∈ s.operands.drop 1,
            k ∈ [OperandKind.const, OperandKind.slot, OperandKind.lslot]) := by
  intro h
  have h3 := (h Shape.slot_slot_fconst rfl).2 OperandKind.fconst (by decide)
  exact absurd h3 (by decide)

/-- C5, amended: basecode.h defines exactly 14 instruction formats, each calling an
emission function of its own whose parameters are the operands of the format,
the backend primitive (`ifunc`) and a type tag (`int`).  Exactly two formats have
five operands, `slot_slot_slot_const_const` and `slot_slot_const_const_const`, and
their last two operands are constants (`jword`); the others have a destination and
two sources, with the destination a slot or an lslot, the first source a const, a
slot or an lslot, and the second source a const, an lconst (`jlong`), an fconst
(`double`), a slot or an lslot.  The formats with an lconst or an fconst are
`slot_slot_fconst`, `lslot_lslot_lconst`, `lslot_slot_lconst` and `lslot_slot_fconst`. -/
theorem shape_templates {α : Type} (ops : List α) (func t : α) :
    shapeTemplates.length = 14
    ∧ shapeTemplates.Nodup
    ∧ (∀ s : Shape, s ∈ shapeTemplates)
    ∧ (shapeTemplates.map Shape.emitter).Nodup
    ∧ (∀ s : Shape, s.emitter.prototype
        = s.operands.map OperandKind.ctype ++ [CType.ifunc, CType.int])
    ∧ (∀ s : Shape, s.expand func t ops
        = if ops.length = s.operands.length then
            some [Stmt.declare func, Stmt.call s.emitter (ops ++ [func, t])]
          else none)
    ∧ shapeTemplates.filter (fun s => decide (s.operands.length = 5))
        = [Shape.slot_slot_slot_const_const, Shape.slot_slot_const_const_const]
    ∧ Shape.slot_slot_slot_const_const.operands.drop 3
        = [OperandKind.const, OperandKind.const]
    ∧ Shape.slot_slot_const_const_const.operands.drop 3
        = [OperandKind.const, OperandKind.const]
    ∧ Shape.slot_slot_slot_const_const.emitter.prototype.drop 3
        = [CType.jword, CType.jword, CType.ifunc, CType.int]
    ∧ Shape.slot_slot_const_const_const.emitter.prototype.drop 3
        = [CType.jword, CType.jword, CType.ifunc, CType.int]
    ∧ (∀ s : Shape, s.operands.length = 3 ∨ s.operands.length = 5)
    ∧ (∀ s : Shape, s.operands.length = 3 →
        (∀ k ∈ s.operands.take 1, k ∈ [OperandKind.slot, OperandKind.lslot])
        ∧ (∀ k ∈ (s.operands.drop 1).take 1,
            k ∈ [OperandKind.const, OperandKind.slot, OperandKind.lslot])
        ∧ (∀ k ∈ s.operands.drop 2,
            k ∈ [OperandKind.const, OperandKind.lconst, OperandKind.fconst,
              OperandKind.slot, OperandKind.lslot]))
    ∧ shapeTemplates.filter (fun s => decide (s.operands.length = 3
          ∧ ∃ k ∈ s.operands, k = OperandKind.lconst ∨ k = OperandKind.fconst))
        = [Shape.slot_slot_fconst, Shape.lslot_lslot_lconst, Shape.lslot_slot_lconst,
            Shape.lslot_slot_fconst] := by
  refine ⟨by decide, by decide, ?_, by decide, ?_, ?_, by decide, rfl, rfl, rfl, rfl,
    ?_, ?_, by decide⟩
  · intro s
    cases s <;> decide
  · intro s
    cases s <;> rfl
  · intro s
    exact expand_eq s ops func t
  · intro s
    cases s <;> decide
  · intro s
    cases s <;> decide

/-! ## Theorems: jcondvar_wait -/

theorem wrapInt_eq (w : Nat) (x : Int) (hw : 1 ≤ w) (lo : -(2 ^ (w - 1)) ≤ x)
    (hi : x < 2 ^ (w - 1)) : wrapInt w x = x := by
  have h2 : (2 : Int) ^ w = 2 * 2 ^ (w - 1) := by
    obtain ⟨k, rfl⟩ : ∃ k, w = k + 1 := ⟨w - 1, by omega⟩
    simp [pow_succ, mul_comm]
  unfold wrapInt
  rw [Int.emod_eq_of_lt (by omega) (by omega)]
  omega

theorem two_pow_mono (a b : Nat) (h : a ≤ b) : (2 : Int) ^ a ≤ 2 ^ b := by
  exact_mod_cast Nat.pow_le_pow_right (by norm_num) h

/-- The wait `jcondvar_wait` blocks in, when nothing overflows before the carry:
the seconds and nanoseconds are added without wrapping and the carry is taken
when the nanoseconds exceed `1000000000`. -/
theorem jcondvar_wait_timed (abi : Abi) (status : CondWait → Int) (now : timeval)
    (timeout : Int) (hl : 32 ≤ abi.longBits) (ht1 : 1 ≤ abi.timeBits)
    (ht : abi.timeBits ≤ 64)
    (hs : -(2 ^ (abi.timeBits - 1)) ≤ now.tv_sec)
    (hu0 : 0 ≤ now.tv_usec) (hu1 : now.tv_usec < 1000000)
    (h0 : 0 ≤ timeout) (hn : timeout ≠ abi.NOTIMEOUT)
    (hsum : now.tv_sec + timeout / 1000 < 2 ^ (abi.timeBits - 1)) :
    (jcondvar_wait abi status now timeout).wait
      = if now.tv_usec * 1000 + timeout % 1000 * 1000000 > 1000000000 then
          CondWait.pthread_cond_timedwait
            ⟨wrapInt abi.timeBits (now.tv_sec + timeout / 1000 + 1),
              now.tv_usec * 1000 + timeout % 1000 * 1000000 - 1000000000⟩
        else
          CondWait.pthread_cond_timedwait
            ⟨now.tv_sec + timeout / 1000, now.tv_usec * 1000 + timeout % 1000 * 1000000⟩ := by
  have hq : Int.tdiv timeout 1000 = timeout / 1000 := Int.tdiv_eq_ediv h0 (by norm_num)
  have hr : Int.tmod timeout 1000 = timeout % 1000 := Int.tmod_eq_emod h0 (by norm_num)
  have hp64 : (2 : Int) ^ (abi.timeBits - 1) ≤ 2 ^ (64 - 1) := two_pow_mono _ _ (by omega)
  have hpl : (2 : Int) ^ 31 ≤ 2 ^ (abi.longBits - 1) := two_pow_mono _ _ (by omega)
  have hpl64 : (2 : Int) ^ 31 ≤ 2 ^ (64 - 1) := by norm_num
  norm_num at hpl64 hp64 hpl
  have hsec64 : wrapInt 64 (now.tv_sec + timeout / 1000) = now.tv_sec + timeout / 1000 :=
    wrapInt_eq 64 _ (by norm_num) (by norm_num; omega) (by norm_num; omega)
  have hsec : wrapInt abi.timeBits (now.tv_sec + timeout / 1000)
      = now.tv_sec + timeout / 1000 :=
    wrapInt_eq _ _ ht1 (by omega) hsum
  have hus : wrapInt abi.longBits (now.tv_usec * 1000) = now.tv_usec * 1000 :=
    wrapInt_eq _ _ (by omega) (by omega) (by omega)
  have hms : wrapInt 64 (timeout % 1000 * 1000000) = timeout % 1000 * 1000000 :=
    wrapInt_eq 64 _ (by norm_num) (by norm_num; omega) (by norm_num; omega)
  have hns64 : wrapInt 64 (now.tv_usec * 1000 + timeout % 1000 * 1000000)
      = now.tv_usec * 1000 + timeout % 1000 * 1000000 :=
    wrapInt_eq 64 _ (by norm_num) (by norm_num; omega) (by norm_num; omega)
  have hns : wrapInt abi.longBits (now.tv_usec * 1000 + timeout % 1000 * 1000000)
      = now.tv_usec * 1000 + timeout % 1000 * 1000000 :=
    wrapInt_eq _ _ (by omega) (by omega) (by omega)
  have hge : ¬ (now.tv_sec + timeout / 1000 < now.tv_sec) := by omega
  simp only [jcondvar_wait, hq, hr, hsec64, hsec, hus, hms, hns64, hns, if_neg hn, if_neg hge]
  split
  · rw [wrapInt_eq abi.longBits _ (by omega) (by omega) (by omega)]
  · rfl

theorem wrapInt_max_succ (w : Nat) (hw : 1 ≤ w) :
    wrapInt w (2 ^ (w - 1) - 1 + 1) = -(2 ^ (w - 1)) := by
  have h2 : (2 : Int) ^ w = 2 ^ (w - 1) + 2 ^ (w - 1) := by
    obtain ⟨k, rfl⟩ : ∃ k, w = k + 1 := ⟨w - 1, by omega⟩
    simp [pow_succ, mul_two]
  unfold wrapInt
  rw [sub_add_cancel, ← h2, Int.emod_self]
  omega

/-- The deadline of `jcondvar_wait` is `now + timeout` whenever the seconds can
take the carry: `now.tv_sec + timeout / 1000 + 1` fits `time_t`. -/
theorem jcondvar_wait_deadline (abi : Abi) (status : CondWait → Int) (now : timeval)
    (timeout : Int) (hl : 32 ≤ abi.longBits) (ht1 : 1 ≤ abi.timeBits)
    (ht : abi.timeBits ≤ 64)
    (hs : -(2 ^ (abi.timeBits - 1)) ≤ now.tv_sec)
    (hu0 : 0 ≤ now.tv_usec) (hu1 : now.tv_usec < 1000000)
    (h0 : 0 ≤ timeout) (hn : timeout ≠ abi.NOTIMEOUT)
    (hsum : now.tv_sec + timeout / 1000 + 1 < 2 ^ (abi.timeBits - 1)) :
    ∃ abst, (jcondvar_wait abi status now timeout).wait = CondWait.pthread_cond_timedwait abst
      ∧ abst.tv_sec * 1000000000 + abst.tv_nsec
        = now.tv_sec * 1000000000 + now.tv_usec * 1000 + timeout * 1000000 := by
  rw [jcondvar_wait_timed abi status now timeout hl ht1 ht hs hu0 hu1 h0 hn (by omega)]
  split
  · refine ⟨_, rfl, ?_⟩
    rw [wrapInt_eq _ _ ht1 (by omega) hsum]
    show (now.tv_sec + timeout / 1000 + 1) * 1000000000
      + (now.tv_usec * 1000 + timeout % 1000 * 1000000 - 1000000000) = _
    omega
  · refine ⟨_, rfl, ?_⟩
    show (now.tv_sec + timeout / 1000) * 1000000000
      + (now.tv_usec * 1000 + timeout % 1000 * 1000000) = _
    omega

/-- The nanoseconds of the deadline of `jcondvar_wait` are between `0` and
`1000000000`, both included, and below `1000000000` unless the microseconds of
`now` and the milliseconds of `timeout` add up to one second exactly. -/
theorem jcondvar_wait_nsec_le (abi : Abi) (status : CondWait → Int) (now : timeval)
    (timeout : Int) (hl : 32 ≤ abi.longBits) (ht1 : 1 ≤ abi.timeBits)
    (ht : abi.timeBits ≤ 64)
    (hs : -(2 ^ (abi.timeBits - 1)) ≤ now.tv_sec)
    (hu0 : 0 ≤ now.tv_usec) (hu1 : now.tv_usec < 1000000)
    (h0 : 0 ≤ timeout) (hn : timeout ≠ abi.NOTIMEOUT)
    (hsum : now.tv_sec + timeout / 1000 < 2 ^ (abi.timeBits - 1)) :
    ∃ abst, (jcondvar_wait abi status now timeout).wait = CondWait.pthread_cond_timedwait abst
      ∧ 0 ≤ abst.tv_nsec ∧ abst.tv_nsec ≤ 1000000000
      ∧ (now.tv_usec * 1000 + timeout % 1000 * 1000000 ≠ 1000000000 →
          abst.tv_nsec < 1000000000) := by
  rw [jcondvar_wait_timed abi status now timeout hl ht1 ht hs hu0 hu1 h0 hn hsum]
  split
  · refine ⟨_, rfl, ?_⟩
    show 0 ≤ now.tv_usec * 1000 + timeout % 1000 * 1000000 - 1000000000 ∧
      now.tv_usec * 1000 + timeout % 1000 * 1000000 - 1000000000 ≤ 1000000000 ∧ (_ →
      now.tv_usec * 1000 + timeout % 1000 * 1000000 - 1000000000 < 1000000000)
    omega
  · refine ⟨_, rfl, ?_⟩
    show 0 ≤ now.tv_usec * 1000 + timeout % 1000 * 1000000 ∧
      now.tv_usec * 1000 + timeout % 1000 * 1000000 ≤ 1000000000 ∧ (_ →
      now.tv_usec * 1000 + timeout % 1000 * 1000000 < 1000000000)
    omega

/-- C9 fails on the code: when `now.tv_sec + timeout / 1000` is the largest `time_t`,
which is no overflow, and the nanoseconds exceed one second, the carry
`abst.tv_sec += 1` wraps: the deadline handed to `pthread_cond_timedwait` has the
smallest `time_t` as seconds and is not `now + timeout`. -/
theorem jcondvar_wait_carry_wraps (abi : Abi) (status : CondWait → Int) (now : timeval)
    (timeout : Int) (hl : 32 ≤ abi.longBits) (ht1 : 1 ≤ abi.timeBits)
    (ht : abi.timeBits ≤ 64)
    (hs : -(2 ^ (abi.timeBits - 1)) ≤ now.tv_sec)
    (hu0 : 0 ≤ now.tv_usec) (hu1 : now.tv_usec < 1000000)
    (h0 : 0 ≤ timeout) (hn : timeout ≠ abi.NOTIMEOUT)
    (hmax : now.tv_sec + timeout / 1000 = 2 ^ (abi.timeBits - 1) - 1)
    (hcarry : now.tv_usec * 1000 + timeout % 1000 * 1000000 > 1000000000) :
    ∃ abst, (jcondvar_wait abi status now timeout).wait = CondWait.pthread_cond_timedwait abst
      ∧ abst.tv_sec = -(2 ^ (abi.timeBits - 1))
      ∧ abst.tv_sec * 1000000000 + abst.tv_nsec
        ≠ now.tv_sec * 1000000000 + now.tv_usec * 1000 + timeout * 1000000 := by
  rw [jcondvar_wait_timed abi status now timeout hl ht1 ht hs hu0 hu1 h0 hn (by omega),
    if_pos hcarry, hmax, wrapInt_max_succ _ ht1]
  refine ⟨_, rfl, rfl, ?_⟩
  show -(2 ^ (abi.timeBits - 1)) * 1000000000
      + (now.tv_usec * 1000 + timeout % 1000 * 1000000 - 1000000000) ≠ _
  have hpos : (0 : Int) < 2 ^ (abi.timeBits - 1) := by positivity
  omega

/-- The failing input of C9 on a platform with a `time_t` of 32 bits: at
`now = 1000000000 s + 999999 us` a timeout of `1147483647999 ms` gives the
deadline `-2147483648 s + 998999000 ns`. -/
theorem jcondvar_wait_carry_wraps_witness :
    (0 : Int) ≤ 999999 ∧ (999999 : Int) < 1000000
    ∧ (0 : Int) ≤ 1147483647999 ∧ (1147483647999 : Int) ≠ ilp32.NOTIMEOUT
    ∧ (1000000000 : Int) + 1147483647999 / 1000 = 2 ^ (ilp32.timeBits - 1) - 1
    ∧ (jcondvar_wait ilp32 (fun _ => 0) ⟨1000000000, 999999⟩ 1147483647999).wait
        = CondWait.pthread_cond_timedwait ⟨-2147483648, 998999000⟩
    ∧ ∃ abst, (jcondvar_wait ilp32 (fun _ => 0) ⟨1000000000, 999999⟩ 1147483647999).wait
          = CondWait.pthread_cond_timedwait abst
        ∧ abst.tv_sec = -(2 ^ (ilp32.timeBits - 1))
        ∧ abst.tv_sec * 1000000000 + abst.tv_nsec
          ≠ (1000000000 : Int) * 1000000000 + 999999 * 1000 + 1147483647999 * 1000000 :=
  ⟨by decide, by decide, by decide, by decide, by decide, by decide,
    jcondvar_wait_carry_wraps ilp32 (fun _ => 0) ⟨1000000000, 999999⟩ 1147483647999
      (by decide) (by decide) (by decide) (by decide) (by decide) (by decide) (by decide)
      (by decide) (by decide) (by decide)⟩

/-- C10 fails on the code: when the microseconds of `now` and the milliseconds of
`timeout` add up to one second exactly, the test `abst.tv_nsec > 1000000000` does
not take the carry and the deadline handed to `pthread_cond_timedwait` has
`tv_nsec = 1000000000`, which is not below `1000000000`. -/
theorem jcondvar_wait_nsec_unnormalised (abi : Abi) (status : CondWait → Int)
    (now : timeval) (timeout : Int) (hl : 32 ≤ abi.longBits) (ht1 : 1 ≤ abi.timeBits)
    (ht : abi.timeBits ≤ 64)
    (hs : -(2 ^ (abi.timeBits - 1)) ≤ now.tv_sec)
    (hu0 : 0 ≤ now.tv_usec) (hu1 : now.tv_usec < 1000000)
    (h0 : 0 ≤ timeout) (hn : timeout ≠ abi.NOTIMEOUT)
    (hsum : now.tv_sec + timeout / 1000 < 2 ^ (abi.timeBits - 1))
    (hone : now.tv_usec * 1000 + timeout % 1000 * 1000000 = 1000000000) :
    ∃ abst, (jcondvar_wait abi status now timeout).wait = CondWait.pthread_cond_timedwait abst
      ∧ abst.tv_sec = now.tv_sec + timeout / 1000
      ∧ abst.tv_nsec = 1000000000
      ∧ ¬ abst.tv_nsec < 1000000000 := by
  rw [jcondvar_wait_timed abi status now timeout hl ht1 ht hs hu0 hu1 h0 hn hsum,
    if_neg (by omega), hone]
  exact ⟨_, rfl, rfl, rfl, fun h => absurd h (by decide : ¬ (1000000000 : Int) < 1000000000)⟩

/-- The failing input of C10: at `now = 1000000000 s + 500000 us` a timeout of
`500 ms` gives the deadline `1000000000 s + 1000000000 ns`. -/
theorem jcondvar_wait_nsec_unnormalised_witness :
    (0 : Int) ≤ 500000 ∧ (500000 : Int) < 1000000
    ∧ (0 : Int) ≤ 500 ∧ (500 : Int) ≠ lp64.NOTIMEOUT
    ∧ (jcondvar_wait lp64 (fun _ => 0) ⟨1000000000, 500000⟩ 500).wait
        = CondWait.pthread_cond_timedwait ⟨1000000000, 1000000000⟩
    ∧ ∃ abst, (jcondvar_wait lp64 (fun _ => 0) ⟨1000000000, 500000⟩ 500).wait
          = CondWait.pthread_cond_timedwait abst
        ∧ abst.tv_sec = 1000000000 + 500 / 1000
        ∧ abst.tv_nsec = 1000000000
        ∧ ¬ abst.tv_nsec < 1000000000 :=
  ⟨by decide, by decide, by decide, by decide, by decide,
    jcondvar_wait_nsec_unnormalised lp64 (fun _ => 0) ⟨1000000000, 500000⟩ 500
      (by decide) (by decide) (by decide) (by decide) (by decide) (by decide) (by decide)
      (by decide) (by decide) (by decide)⟩

end Kaffe
